import Mathlib

/-!
Verification development for the aion-dap token-holder analysis and
real-time wallet monitoring code.

The embedding covers two source modules:

* `src/client/src/services/RealTimeMonitor.js` — the `RealTimeMonitor`
  class: monitored-wallet records, the per-wallet balance check
  `checkWalletChanges`, the sell handler `handleSellDetected`, the poll
  scheduling (`startPolling` / `checkAllWallets` /
  `checkAllWalletsStaggered`), and the `startMonitoring` lifecycle.

* `src/unnamed/part_001` — the `WalletAnalyticsService` class: holder
  records, `getTopHolders` and `getHoldersFromTransactions` percentage
  computation, `classifyWallet`, `classifyWallets` and `assessRisk`.

JavaScript numbers are modelled as rationals (`ℚ`), timestamps as `ℕ`
milliseconds.  Where `NaN` can flow — `checkWalletChanges` computes
`parseFloat(currentBalance.formatted)` (line 281) on a fetch result
that is a plain number, which yields `NaN` — numbers are modelled by
`JSNum`, a rational or `NaN`, with the JS rules that arithmetic
propagates `NaN` and every ordered comparison involving `NaN` is false.
Network calls are modelled by passing their results as explicit
parameters (an oracle per call site); a call that the source converts
to a default on failure is modelled by that default value.

A JavaScript peculiarity that matters here: a `class` body may define the
same method name twice, in which case the LATER definition is the one
installed on the prototype and the earlier one is dead code.
`RealTimeMonitor` does this twice: `startPolling` is defined at lines
142-146 (staggered batches, 20 s interval) and again at lines 255-259
(check all wallets at once, 30 s interval), and `handleSellDetected` is
defined at lines 167-204 (updates `alertCount` / `totalVolumeSold`) and
again at lines 308-364 (builds an alert from transaction history, never
touches those counters).  The embedding keeps both bodies, named
`...First` and `...Second`, and a dispatch definition selecting the one
JavaScript actually installs (the second).
-/

namespace AionDap

/-! ### JavaScript numbers with NaN

`checkWalletChanges` computes `parseFloat(currentBalance.formatted)` on
a value that is a plain number, which yields `NaN`, and `NaN` then flows
through the subtraction, division and comparisons of lines 291-294.
Those expressions are therefore modelled over a JavaScript-number type:
a rational or `NaN`, with the JS rules that arithmetic on `NaN`
propagates it and every ordered comparison involving `NaN` is false. -/

/-- A JavaScript number as it occurs in `checkWalletChanges`: a real
(rational) value or `NaN`. -/
inductive JSNum where
  | num (q : ℚ)
  | nan
  deriving DecidableEq

/-- JS addition on the values occurring here: exact on two numbers,
`NaN` propagates. -/
def JSNum.add : JSNum → JSNum → JSNum
  | num a, num b => num (a + b)
  | _, _ => nan

/-- JS subtraction: exact on two numbers, `NaN` propagates. -/
def JSNum.sub : JSNum → JSNum → JSNum
  | num a, num b => num (a - b)
  | _, _ => nan

/-- JS multiplication: exact on two numbers, `NaN` propagates. -/
def JSNum.mul : JSNum → JSNum → JSNum
  | num a, num b => num (a * b)
  | _, _ => nan

/-- JS division on the operand shapes that occur here: exact on two
numbers with nonzero divisor, `NaN` propagates.  For a zero divisor JS
returns a signed infinity (`NaN` for 0/0) while this function returns
`nan`; at the one call site (line 292) the dividend is
`lastBalance - NaN = NaN`, where JS also yields `NaN`, so the two agree
on every reachable input. -/
def JSNum.div : JSNum → JSNum → JSNum
  | num a, num b => if b = 0 then nan else num (a / b)
  | _, _ => nan

/-- JS strict greater-than: exact on two numbers; any comparison
involving `NaN` is false. -/
def JSNum.gt : JSNum → JSNum → Bool
  | num a, num b => decide (b < a)
  | _, _ => false

/-! ### Monitored wallets (RealTimeMonitor.js, `initialize`, lines 43-51) -/

/-- One entry of `this.monitoredWallets`, as populated by `initialize`
(lines 43-51): the wallet data plus the token address, network, and the
mutable monitoring fields `lastBalance`, `lastChecked`, `alertCount`,
`totalVolumeSold`.  `lastBalance` and `lastChecked` start as `null`;
`lastBalance` holds whatever number line 285/299 stores — in this code
that is `NaN` (see `parseFloatFormatted`), so the field is an optional
`JSNum`.  `totalVolumeSold` starts at 0 and is only ever written by the
first (shadowed) `handleSellDetected`, whose `usdValue` is a `JSNum`. -/
structure MonitoredWallet where
  address : String
  type : String
  tokenAddress : String
  network : String
  lastBalance : Option JSNum
  lastChecked : Option ℕ
  alertCount : ℕ
  totalVolumeSold : JSNum
  deriving DecidableEq

/-- Wallet-state effect of the FIRST `handleSellDetected` definition
(lines 167-204): `usdValue = amountSold * (tokenPrice || 0)` (line 173),
then `wallet.alertCount = (wallet.alertCount || 0) + 1` and
`wallet.totalVolumeSold = (wallet.totalVolumeSold || 0) + usdValue`
(lines 176-177).  The token price returned by `getTokenPrice` (a plain
number; 0 on any failure, lines 207-221) is the oracle `tokenPrice`,
on which `|| 0` is the identity for the values that function returns. -/
def handleSellDetectedFirst_walletEffect (tokenPrice : ℚ) (w : MonitoredWallet)
    (amountSold _newBalance : JSNum) : MonitoredWallet :=
  let usdValue := amountSold.mul (JSNum.num tokenPrice)
  { w with alertCount := w.alertCount + 1,
           totalVolumeSold := w.totalVolumeSold.add usdValue }

/-- Wallet-state effect of the SECOND `handleSellDetected` definition
(lines 308-364): that body looks up recent transactions, builds an
`alertData` record and dispatches it, but contains no assignment to any
field of `wallet` — in particular it never writes `alertCount` or
`totalVolumeSold`.  As a wallet-state transformer it is the identity. -/
def handleSellDetectedSecond_walletEffect (w : MonitoredWallet)
    (_amountSold _newBalance : JSNum) : MonitoredWallet := w

/-- The `handleSellDetected` actually installed on the class: JavaScript
class semantics make the later duplicate definition (lines 308-364) win,
so the effective wallet effect is the second one. -/
def handleSellDetected_walletEffect : MonitoredWallet → JSNum → JSNum → MonitoredWallet :=
  handleSellDetectedSecond_walletEffect

/-- Line 281, `parseFloat(currentBalance.formatted)`, evaluated on the
value `getTokenBalance` actually returns.  The only `getTokenBalance` in
the repository (part_001 lines 533-559) returns a PLAIN NUMBER
(`parseFloat(response.data[0].balance)`, or `0`), not an object with a
`formatted` field; a number has no `formatted` property, the access
yields `undefined`, and `parseFloat(undefined)` is `NaN` — for every
fetch value. -/
def parseFloatFormatted (_currentBalance : ℚ) : JSNum := JSNum.nan

/-- Per-wallet balance check `checkWalletChanges` (lines 271-305),
parametrised by the wallet effect of `this.handleSellDetected`
(`sellHandler`, receiving the wallet, `balanceChange` and
`currentBalanceNum`) and by the result of the balance fetch.

The fetch result `currentBalance` is the plain number returned by
`getTokenBalance` (part_001 lines 533-559): the parsed balance, or `0`
both when no data is returned and on any error.  The guard
`if (!currentBalance) return` (line 279) is the JS falsiness test of
that number, i.e. `currentBalance = 0` (a `NaN` fetch result, possible
only from an unparsable balance string, is likewise falsy and would take
the same early return).  Past the guard, line 281 converts the fetch
result via `parseFloatFormatted`, producing `NaN`, and lines 283-300 run
on that value.

Returns the updated wallet together with a flag recording whether sell
handling was invoked (line 295).  The surrounding `try/catch` turns a
thrown error into a no-op; note that in the source the fetch call itself
(`WalletAnalyticsService.getTokenBalance` on the CLASS export, line 273,
though `getTokenBalance` is an instance method) throws a TypeError, so
on the program as shipped every call takes that catch and mutates
nothing — this embedding models the body that runs if the fetch call is
repaired, which is the reading under which the claims quantify over
fetch results. -/
def checkWalletChanges (sellHandler : MonitoredWallet → JSNum → JSNum → MonitoredWallet)
    (w : MonitoredWallet) (currentBalance : ℚ) (now : ℕ) :
    MonitoredWallet × Bool :=
  if currentBalance = 0 then (w, false)
  else
    let currentBalanceNum : JSNum := parseFloatFormatted currentBalance
    match w.lastBalance with
    | none => ({ w with lastBalance := some currentBalanceNum, lastChecked := some now }, false)
    | some lastBalance =>
      let balanceChange := lastBalance.sub currentBalanceNum
      let changePercentage := (balanceChange.div lastBalance).mul (JSNum.num 100)
      if balanceChange.gt (JSNum.num 0) && changePercentage.gt (JSNum.num 1) then
        let w1 := sellHandler w balanceChange currentBalanceNum
        ({ w1 with lastBalance := some currentBalanceNum, lastChecked := some now }, true)
      else
        ({ w with lastBalance := some currentBalanceNum, lastChecked := some now }, false)

/-- A concrete monitored wallet with an established baseline of 100
tokens, used to instantiate the monitor theorems. -/
def demoWallet : MonitoredWallet :=
  { address := "0xabc", type := "Team Wallet", tokenAddress := "0xtoken",
    network := "ethereum", lastBalance := some (JSNum.num 100), lastChecked := some 0,
    alertCount := 0, totalVolumeSold := JSNum.num 0 }

/-- A concrete freshly initialized monitored wallet (`lastBalance` and
`lastChecked` still `null`). -/
def freshWallet : MonitoredWallet :=
  { address := "0xabc", type := "Team Wallet", tokenAddress := "0xtoken",
    network := "ethereum", lastBalance := none, lastChecked := none,
    alertCount := 0, totalVolumeSold := JSNum.num 0 }

/-- Claim C3 (divergence): the claim says the first observation of a
wallet sets `lastBalance` to the fetched current balance; in the code
the first observation of a fresh wallet with usable fetched balance 42
stores `lastBalance = NaN` — `parseFloat(currentBalance.formatted)` on
the plain-number fetch result (line 281) — which is not the fetched
balance.  The no-alert part and `lastChecked = now` do hold. -/
theorem c3_first_observation_stores_nan :
    checkWalletChanges handleSellDetected_walletEffect freshWallet 42 7 =
      ({ freshWallet with lastBalance := some JSNum.nan, lastChecked := some 7 }, false) ∧
    JSNum.nan ≠ JSNum.num 42 := by
  constructor
  · unfold checkWalletChanges
    rw [if_neg (by norm_num)]
    rfl
  · decide

/-- Claim C4: if the balance fetch inside `checkWalletChanges` returns
the value 0 (which `getTokenBalance` also returns for a genuine zero
balance after the wallet sold everything), the check returns
immediately: no sell handling runs and the wallet record — in particular
`lastBalance`, `lastChecked`, `alertCount` and `totalVolumeSold` — is
left unchanged, so a 100% sell-off is never detected. -/
theorem c4_zero_balance_skips_wallet
    (sellHandler : MonitoredWallet → JSNum → JSNum → MonitoredWallet)
    (w : MonitoredWallet) (now : ℕ) :
    checkWalletChanges sellHandler w 0 now = (w, false) := by
  unfold checkWalletChanges
  rw [if_pos rfl]

/-- Claim C5 (divergence): the claim says sell handling fires exactly
when the drop strictly exceeds 1%; in the code sell handling can NEVER
fire, on any wallet state, any fetch result and any time: past the
falsiness guard `currentBalanceNum` is `NaN` (line 281), so
`balanceChange = lastBalance - NaN = NaN` and the threshold test
`balanceChange > 0 && changePercentage > 1` (line 294) compares against
`NaN`, which is always false. -/
theorem c5_sell_handling_never_fires
    (sellHandler : MonitoredWallet → JSNum → JSNum → MonitoredWallet)
    (w : MonitoredWallet) (currentBalance : ℚ) (now : ℕ) :
    (checkWalletChanges sellHandler w currentBalance now).2 = false := by
  unfold checkWalletChanges
  by_cases hcur : currentBalance = 0
  · rw [if_pos hcur]
  · rw [if_neg hcur]
    cases hlb : w.lastBalance with
    | none => rfl
    | some lb => cases lb <;> rfl

/-! ### Poll scheduling (RealTimeMonitor.js, lines 141-164 and 254-268) -/

/-- Batch schedule of `checkAllWalletsStaggered` (lines 149-164): the
loop `for (let i = 0; i < wallets.length; i += batchSize)` with
`batchSize = 3` slices the wallet list into consecutive chunks of 3
(the last chunk may be shorter); the checks of one chunk are issued
concurrently and awaited together before the next chunk starts. -/
def checkAllWalletsStaggered_batches {α : Type} : List α → List (List α)
  | [] => []
  | a :: l => ((a :: l).take 3) :: checkAllWalletsStaggered_batches (l.drop 2)
termination_by l => l.length
decreasing_by
  simp only [List.length_drop, List.length_cons]
  omega

/-- Number of 2000 ms inter-batch delays executed by
`checkAllWalletsStaggered` (lines 160-162): one after every batch whose
end index is still below the wallet count, i.e. after every batch but
the last. -/
def checkAllWalletsStaggered_delayCount {α : Type} : List α → ℕ
  | [] => 0
  | a :: l => if (a :: l).length ≤ 3 then 0 else 1 + checkAllWalletsStaggered_delayCount (l.drop 2)
termination_by l => l.length
decreasing_by
  simp only [List.length_drop, List.length_cons]
  omega

/-- Batch schedule of `checkAllWallets` (lines 262-268): every monitored
wallet is checked concurrently in one single `Promise.all` batch. -/
def checkAllWallets_batches {α : Type} (wallets : List α) : List (List α) := [wallets]

/-- Inter-batch delays of `checkAllWallets`: the body contains no delay
at all. -/
def checkAllWallets_delayCount {α : Type} (_wallets : List α) : ℕ := 0

/-- The two duplicate `startPolling` bodies: the first (lines 142-146)
schedules `checkAllWalletsStaggered` every 20000 ms, the second (lines
255-259) schedules `checkAllWallets` every 30000 ms. -/
inductive PollBody where
  | staggered
  | allAtOnce
  deriving DecidableEq

/-- The `startPolling` actually installed on the class: JavaScript class
semantics install the LATER duplicate definition (lines 255-259), so
each timer tick runs `checkAllWallets`, not `checkAllWalletsStaggered`. -/
def startPolling_installed : PollBody := PollBody.allAtOnce

/-- Timer interval of the installed `startPolling`. -/
def pollCycle_intervalMs : ℕ :=
  match startPolling_installed with
  | PollBody.staggered => 20000
  | PollBody.allAtOnce => 30000

/-- Batch schedule of one effective poll cycle, as dispatched by the
installed `startPolling`. -/
def pollCycle_batches {α : Type} (wallets : List α) : List (List α) :=
  match startPolling_installed with
  | PollBody.staggered => checkAllWalletsStaggered_batches wallets
  | PollBody.allAtOnce => checkAllWallets_batches wallets

/-- Inter-batch delay count of one effective poll cycle. -/
def pollCycle_delayCount {α : Type} (wallets : List α) : ℕ :=
  match startPolling_installed with
  | PollBody.staggered => checkAllWalletsStaggered_delayCount wallets
  | PollBody.allAtOnce => checkAllWallets_delayCount wallets

/-- Claim C1 (divergence): the claim says every poll cycle processes the
monitored wallets in sequential batches of 3 with a 2-second delay
between batches, but the second duplicate definition of `startPolling`
(lines 255-259) shadows the staggered one (lines 142-146), so the
installed poll cycle checks ALL wallets in one concurrent batch with no
inter-batch delay, on a 30 s interval: on a 4-wallet set the effective
schedule is a single batch of 4, while the shadowed staggered code
would have produced a batch of 3 and a batch of 1 with one delay. -/
theorem c1_poll_cycle_not_batched :
    pollCycle_batches ["w1", "w2", "w3", "w4"] = [["w1", "w2", "w3", "w4"]] ∧
    pollCycle_delayCount ["w1", "w2", "w3", "w4"] = 0 ∧
    pollCycle_intervalMs = 30000 ∧
    checkAllWalletsStaggered_batches ["w1", "w2", "w3", "w4"] = [["w1", "w2", "w3"], ["w4"]] ∧
    checkAllWalletsStaggered_delayCount ["w1", "w2", "w3", "w4"] = 1 ∧
    ¬ (∀ b ∈ pollCycle_batches ["w1", "w2", "w3", "w4"], b.length ≤ 3) := by
  refine ⟨rfl, rfl, rfl, ?_, ?_, ?_⟩
  · simp [checkAllWalletsStaggered_batches]
  · simp [checkAllWalletsStaggered_delayCount]
  · intro hall
    have := hall ["w1", "w2", "w3", "w4"] (by simp [pollCycle_batches,
      startPolling_installed, checkAllWallets_batches])
    simp at this

/-- Claim C2 (divergence): the sell-handling path that actually
executes — the second duplicate `handleSellDetected` definition (lines
308-364), which shadows the first — leaves EVERY wallet field, in
particular `alertCount` and `totalVolumeSold`, unchanged on every
invocation, whereas the claim says it increments `alertCount` by one
and accumulates the computed `usdValue`; the shadowed first definition
(lines 167-204) is the one that would do that (at amountSold 50 and
token price 2: `alertCount` 0 to 1, `totalVolumeSold` 0 to 100).  The
sell path is moreover unreachable in the shipped code
(`c5_sell_handling_never_fires`), so the counters can never advance at
all. -/
theorem c2_effective_sell_handler_skips_stats :
    (∀ (w : MonitoredWallet) (amountSold newBalance : JSNum),
      handleSellDetected_walletEffect w amountSold newBalance = w) ∧
    (handleSellDetected_walletEffect demoWallet (JSNum.num 50) (JSNum.num 50)).alertCount = 0 ∧
    (handleSellDetected_walletEffect demoWallet (JSNum.num 50) (JSNum.num 50)).totalVolumeSold
      = JSNum.num 0 ∧
    (handleSellDetectedFirst_walletEffect 2 demoWallet (JSNum.num 50) (JSNum.num 50)).alertCount
      = 1 ∧
    (handleSellDetectedFirst_walletEffect 2 demoWallet (JSNum.num 50) (JSNum.num 50)).totalVolumeSold
      = JSNum.num 100 := by
  refine ⟨fun w a b => rfl, rfl, rfl, rfl, ?_⟩
  show JSNum.add demoWallet.totalVolumeSold (JSNum.mul (JSNum.num 50) (JSNum.num 2))
    = JSNum.num 100
  have h : (0 : ℚ) + 50 * 2 = 100 := by norm_num
  simp [demoWallet, JSNum.add, JSNum.mul, h]

/-! ### Monitoring lifecycle (RealTimeMonitor.js, `startMonitoring`, lines 87-107) -/

/-- The lifecycle-relevant state of a `RealTimeMonitor` instance:
`tokenAddress` and `blockchain` (both `null` until `initialize`), the
size of `monitoredWallets`, the `isMonitoring` flag, and the number of
poll timers currently active (each `startPolling` call creates one via
`setInterval`). -/
structure MonitorState where
  tokenAddress : Option String
  blockchain : Option String
  walletCount : ℕ
  isMonitoring : Bool
  timerCount : ℕ
  deriving DecidableEq

/-- The state produced by the constructor (lines 6-14): nothing
configured, not monitoring, no timer. -/
def constructorState : MonitorState :=
  { tokenAddress := none, blockchain := none, walletCount := 0,
    isMonitoring := false, timerCount := 0 }

/-- The error message thrown by `startMonitoring` when the monitor is
not initialized (line 89). -/
def notInitializedMsg : String := "Monitor not initialized. Call initialize() first."

/-- `startMonitoring` (lines 87-107): throws if `tokenAddress` or
`blockchain` is unset; returns `false` when there are no wallets to
monitor; returns `true` without doing anything when monitoring is
already active; otherwise sets `isMonitoring` and starts one poll timer
via `startPolling`, returning `true`.  The result is the pair of the
returned/thrown value and the post-call state. -/
def startMonitoring (s : MonitorState) : Except String Bool × MonitorState :=
  if s.tokenAddress = none ∨ s.blockchain = none then
    (Except.error notInitializedMsg, s)
  else if s.walletCount = 0 then
    (Except.ok false, s)
  else if s.isMonitoring then
    (Except.ok true, s)
  else
    (Except.ok true, { s with isMonitoring := true, timerCount := s.timerCount + 1 })

/-- The state after `n` successive `startMonitoring` calls. -/
def startMonitoringIter : ℕ → MonitorState → MonitorState
  | 0, s => s
  | n + 1, s => startMonitoringIter n (startMonitoring s).2

/-- All of `n` successive `startMonitoring` calls returned success
(`Except.ok true`). -/
def startMonitoringAllOk : ℕ → MonitorState → Prop
  | 0, _ => True
  | n + 1, s => (startMonitoring s).1 = Except.ok true ∧ startMonitoringAllOk n (startMonitoring s).2

/-- In an initialized, nonempty, already-monitoring state,
`startMonitoring` is a fixed point returning success, so any number of
further calls succeed and change nothing. -/
theorem startMonitoring_steady (s : MonitorState)
    (htok : s.tokenAddress ≠ none) (hbc : s.blockchain ≠ none)
    (hwc : s.walletCount ≠ 0) (hmon : s.isMonitoring = true) :
    ∀ n : ℕ, startMonitoringAllOk n s ∧ startMonitoringIter n s = s := by
  have hstep : startMonitoring s = (Except.ok true, s) := by
    unfold startMonitoring
    rw [if_neg (by simp [htok, hbc]), if_neg hwc, if_pos hmon]
  intro n
  induction n with
  | zero => exact ⟨trivial, rfl⟩
  | succ n ih =>
    refine ⟨⟨?_, ?_⟩, ?_⟩
    · rw [hstep]
    · rw [hstep]
      exact ih.1
    · show startMonitoringIter n (startMonitoring s).2 = s
      rw [hstep]
      exact ih.2

/-- Claim C6: `startMonitoring` called before `initialize` (more
precisely, with `tokenAddress` or `blockchain` unset) fails with the
not-initialized error, leaving the state — in particular the timer
count — unchanged; called while monitoring is already active (of a
nonempty wallet set) it is a no-op returning success; and starting from
an initialized, not-yet-monitoring state with wallets and no timer, any
number `n + 1` of successive calls all return success and leave exactly
one poll timer active. -/
theorem c6_startMonitoring_lifecycle :
    (∀ s : MonitorState, s.tokenAddress = none ∨ s.blockchain = none →
      startMonitoring s = (Except.error notInitializedMsg, s)) ∧
    (∀ s : MonitorState, s.tokenAddress ≠ none → s.blockchain ≠ none →
      s.walletCount ≠ 0 → s.isMonitoring = true →
      startMonitoring s = (Except.ok true, s)) ∧
    (∀ s : MonitorState, ∀ n : ℕ, s.tokenAddress ≠ none → s.blockchain ≠ none →
      0 < s.walletCount → s.isMonitoring = false → s.timerCount = 0 →
      startMonitoringAllOk (n + 1) s ∧ (startMonitoringIter (n + 1) s).timerCount = 1) := by
  refine ⟨?_, ?_, ?_⟩
  · intro s h
    unfold startMonitoring
    rw [if_pos h]
  · intro s htok hbc hwc hmon
    unfold startMonitoring
    rw [if_neg (by simp [htok, hbc]), if_neg hwc, if_pos hmon]
  · intro s n htok hbc hwc hmon htimer
    have hstep : startMonitoring s =
        (Except.ok true, { s with isMonitoring := true, timerCount := s.timerCount + 1 }) := by
      unfold startMonitoring
      rw [if_neg (by simp [htok, hbc]), if_neg (by omega), if_neg (by simp [hmon])]
    have hsteady := startMonitoring_steady
      { s with isMonitoring := true, timerCount := s.timerCount + 1 }
      htok hbc (by simp only; omega) rfl n
    constructor
    · exact ⟨by rw [hstep], by rw [hstep]; exact hsteady.1⟩
    · show (startMonitoringIter n (startMonitoring s).2).timerCount = 1
      rw [hstep, hsteady.2]
      simp [htimer]

/-- Witness for C6 at concrete states: the fresh constructor state fails
with the not-initialized error; a concrete active state is a successful
no-op; and two successive calls on a concrete initialized idle state
with 5 wallets both succeed and leave exactly one timer. -/
theorem c6_startMonitoring_lifecycle_witness :
    startMonitoring constructorState = (Except.error notInitializedMsg, constructorState) ∧
    startMonitoring
      { tokenAddress := some "0xtoken", blockchain := some "ethereum",
        walletCount := 5, isMonitoring := true, timerCount := 1 } =
      (Except.ok true,
        { tokenAddress := some "0xtoken", blockchain := some "ethereum",
          walletCount := 5, isMonitoring := true, timerCount := 1 }) ∧
    (startMonitoringAllOk 2
      { tokenAddress := some "0xtoken", blockchain := some "ethereum",
        walletCount := 5, isMonitoring := false, timerCount := 0 } ∧
     (startMonitoringIter 2
      { tokenAddress := some "0xtoken", blockchain := some "ethereum",
        walletCount := 5, isMonitoring := false, timerCount := 0 }).timerCount = 1) := by
  refine ⟨?_, ?_, ?_⟩
  · exact (c6_startMonitoring_lifecycle.1 constructorState (Or.inl rfl))
  · exact (c6_startMonitoring_lifecycle.2.1 _ (by simp) (by simp) (by simp) rfl)
  · exact (c6_startMonitoring_lifecycle.2.2 _ 1 (by simp) (by simp) (by simp) rfl rfl)

/-! ### Wallet classification (part_001, `WalletAnalyticsService`) -/

/-- A holder record as produced by `getTopHolders` /
`getHoldersFromTransactions` (part_001 lines 173-178 and 243-248):
address, human-readable balance, raw balance and percentage of supply. -/
structure Holder where
  address : String
  balance : ℚ
  balanceRaw : ℚ
  percentage : ℚ
  deriving DecidableEq

/-- The classification record returned by `classifyWallet` (part_001
lines 343-380): a type tag, a justification string and a risk level. -/
structure WalletClassification where
  type : String
  reason : String
  riskLevel : String
  deriving DecidableEq

/-- The result of `detectBundlePattern` (part_001 lines 415-450), passed
to `classifyWallet` as an oracle: whether the behavioral heuristic
matched and its reason string. -/
structure BundlePattern where
  isBundle : Bool
  reason : String
  deriving DecidableEq

/-- Rendering of `x.toFixed(2)` for the reason string of the
concentration rule: the rational rounded half-up to two decimal
places. -/
def toFixed2 (q : ℚ) : String :=
  let n : ℤ := ⌊q * 100 + 1 / 2⌋
  let frac : ℕ := (n % 100).toNat
  toString (n / 100) ++ "." ++ (if frac < 10 then "0" ++ toString frac else toString frac)

/-- `classifyWallet` (part_001 lines 335-381).  The two network
sub-checks are oracles: `fundedByDeployer` is the result of
`checkDeployerFunding` (false on any failure, lines 383-413) and
`bundlePattern` the result of `detectBundlePattern` (non-bundle on any
failure).  Rule order as in the source: concentration rule
(`percentage > 0.1`, line 341) first, then deployer funding (only when a
deployer address is known, lines 351-363), then the behavioral pattern,
else regular. -/
def classifyWallet (holder : Holder) (deployer : Option String)
    (fundedByDeployer : Bool) (bundlePattern : BundlePattern) : WalletClassification :=
  if holder.percentage > 1 / 10 then
    { type := "team",
      reason := "Holds " ++ toFixed2 holder.percentage ++ "% of total supply",
      riskLevel := if holder.percentage > 10 then "high" else "medium" }
  else if deployer.isSome && fundedByDeployer then
    { type := "bundle", reason := "Funded by contract deployer", riskLevel := "high" }
  else if bundlePattern.isBundle then
    { type := "bundle", reason := bundlePattern.reason, riskLevel := "medium" }
  else
    { type := "regular", reason := "Normal wallet activity", riskLevel := "low" }

/-- A holder together with its classification, as pushed into the
buckets by `classifyWallets` (`{ ...holder, ...classification }`, lines
307-313, or `{ ...holder, type, reason }` on failure, line 317 — the
failure entry carries no `riskLevel` field, hence the `Option`). -/
structure ClassifiedWallet where
  address : String
  balance : ℚ
  balanceRaw : ℚ
  percentage : ℚ
  type : String
  reason : String
  riskLevel : Option String
  deriving DecidableEq

/-- Spread of a holder with a successful classification
(`{ ...holder, ...classification }`). -/
def attachClassification (h : Holder) (c : WalletClassification) : ClassifiedWallet :=
  { address := h.address, balance := h.balance, balanceRaw := h.balanceRaw,
    percentage := h.percentage, type := c.type, reason := c.reason,
    riskLevel := some c.riskLevel }

/-- The entry pushed when classification of one holder raised (part_001
line 317): `{ ...holder, type: 'unknown', reason: 'Classification failed' }`. -/
def classificationFailedEntry (h : Holder) : ClassifiedWallet :=
  { address := h.address, balance := h.balance, balanceRaw := h.balanceRaw,
    percentage := h.percentage, type := "unknown", reason := "Classification failed",
    riskLevel := none }

/-- The aggregate risk record returned by `assessRisk` (part_001 lines
507-513). -/
structure RiskAssessment where
  riskLevel : String
  recommendation : String
  teamSupplyPercentage : ℚ
  bundleSupplyPercentage : ℚ
  totalRiskySupply : ℚ
  deriving DecidableEq

/-- `reduce((sum, wallet) => sum + wallet.percentage, 0)` (part_001
lines 490-491). -/
def sumPercentage (ws : List ClassifiedWallet) : ℚ :=
  ws.foldl (fun sum w => sum + w.percentage) 0

/-- `assessRisk` (part_001 lines 489-514): sums each bucket's
percentages and grades the result. -/
def assessRisk (teamWallets bundleWallets : List ClassifiedWallet) : RiskAssessment :=
  let teamSupply := sumPercentage teamWallets
  let bundleSupply := sumPercentage bundleWallets
  if teamSupply > 20 then
    { riskLevel := "high",
      recommendation := "HIGH RISK: Team controls significant portion of supply.",
      teamSupplyPercentage := teamSupply, bundleSupplyPercentage := bundleSupply,
      totalRiskySupply := teamSupply + bundleSupply }
  else if bundleSupply > 15 then
    { riskLevel := "high",
      recommendation := "HIGH RISK: Large bundle wallet presence detected.",
      teamSupplyPercentage := teamSupply, bundleSupplyPercentage := bundleSupply,
      totalRiskySupply := teamSupply + bundleSupply }
  else if teamSupply > 10 ∨ bundleSupply > 10 then
    { riskLevel := "medium",
      recommendation := "MEDIUM RISK: Monitor team and bundle wallet activity.",
      teamSupplyPercentage := teamSupply, bundleSupplyPercentage := bundleSupply,
      totalRiskySupply := teamSupply + bundleSupply }
  else
    { riskLevel := "low",
      recommendation := "Token appears to have low risk factors.",
      teamSupplyPercentage := teamSupply, bundleSupplyPercentage := bundleSupply,
      totalRiskySupply := teamSupply + bundleSupply }

/-- The loop of `classifyWallets` (part_001 lines 299-319),
parametrised by the per-holder classification call, which may raise
(modelled by `Except`): each holder is pushed, in order, into exactly
one of the team / bundle / regular buckets; a raise pushes the
`unknown` fallback entry into the regular bucket. -/
def classifyWalletsLoop (classify : Holder → Except Unit WalletClassification) :
    List Holder → List ClassifiedWallet × List ClassifiedWallet × List ClassifiedWallet
  | [] => ([], [], [])
  | h :: rest =>
    let acc := classifyWalletsLoop classify rest
    match classify h with
    | Except.ok c =>
      if c.type = "team" then (attachClassification h c :: acc.1, acc.2.1, acc.2.2)
      else if c.type = "bundle" then (acc.1, attachClassification h c :: acc.2.1, acc.2.2)
      else (acc.1, acc.2.1, attachClassification h c :: acc.2.2)
    | Except.error _ => (acc.1, acc.2.1, classificationFailedEntry h :: acc.2.2)

/-- The record returned by `classifyWallets` (part_001 lines 327-332). -/
structure ClassificationResult where
  teamWallets : List ClassifiedWallet
  bundleWallets : List ClassifiedWallet
  regularWallets : List ClassifiedWallet
  riskAssessment : RiskAssessment
  deriving DecidableEq

/-- `classifyWallets` (part_001 lines 261-333): run the classification
loop over the holders and attach the aggregate risk assessment.  The
not-an-array and empty-input guards (lines 274-292) coincide with the
loop on an empty list. -/
def classifyWallets (classify : Holder → Except Unit WalletClassification)
    (holders : List Holder) : ClassificationResult :=
  let acc := classifyWalletsLoop classify holders
  { teamWallets := acc.1, bundleWallets := acc.2.1, regularWallets := acc.2.2,
    riskAssessment := assessRisk acc.1 acc.2.1 }

/-- Spec-side characterization of the team bucket: the in-order
selection of holders whose classification succeeded with type `team`. -/
def teamBucketSpec (classify : Holder → Except Unit WalletClassification)
    (holders : List Holder) : List ClassifiedWallet :=
  holders.filterMap fun h =>
    match classify h with
    | Except.ok c => if c.type = "team" then some (attachClassification h c) else none
    | Except.error _ => none

/-- Spec-side characterization of the bundle bucket. -/
def bundleBucketSpec (classify : Holder → Except Unit WalletClassification)
    (holders : List Holder) : List ClassifiedWallet :=
  holders.filterMap fun h =>
    match classify h with
    | Except.ok c =>
      if c.type = "team" then none
      else if c.type = "bundle" then some (attachClassification h c) else none
    | Except.error _ => none

/-- Spec-side characterization of the regular bucket: successful
classifications of any other type, plus the `unknown` fallback entry for
every holder whose classification raised. -/
def regularBucketSpec (classify : Holder → Except Unit WalletClassification)
    (holders : List Holder) : List ClassifiedWallet :=
  holders.filterMap fun h =>
    match classify h with
    | Except.ok c =>
      if c.type = "team" then none
      else if c.type = "bundle" then none
      else some (attachClassification h c)
    | Except.error _ => some (classificationFailedEntry h)

/-- The classification loop computes exactly the three spec-side
buckets. -/
theorem classifyWalletsLoop_eq_spec (classify : Holder → Except Unit WalletClassification)
    (holders : List Holder) :
    classifyWalletsLoop classify holders =
      (teamBucketSpec classify holders, bundleBucketSpec classify holders,
        regularBucketSpec classify holders) := by
  induction holders with
  | nil => rfl
  | cons h rest ih =>
    simp only [classifyWalletsLoop, teamBucketSpec, bundleBucketSpec, regularBucketSpec,
      List.filterMap_cons, ih]
    cases hc : classify h with
    | ok c =>
      by_cases h1 : c.type = "team"
      · simp [h1, teamBucketSpec, bundleBucketSpec, regularBucketSpec]
      · by_cases h2 : c.type = "bundle" <;>
          simp [h1, h2, teamBucketSpec, bundleBucketSpec, regularBucketSpec]
    | error e =>
      simp [teamBucketSpec, bundleBucketSpec, regularBucketSpec]

/-- Each holder contributes exactly one entry to exactly one bucket. -/
theorem classifyWalletsLoop_length (classify : Holder → Except Unit WalletClassification)
    (holders : List Holder) :
    (classifyWalletsLoop classify holders).1.length +
      (classifyWalletsLoop classify holders).2.1.length +
      (classifyWalletsLoop classify holders).2.2.length = holders.length := by
  induction holders with
  | nil => rfl
  | cons h rest ih =>
    simp only [classifyWalletsLoop]
    cases classify h with
    | ok c =>
      simp only []
      split_ifs <;> simp only [List.length_cons] <;> omega
    | error e =>
      simp only [List.length_cons]
      omega

/-- Claim C7 (amended: the fallback reason string is
"Classification failed", with a capital C, as written in the source):
`classifyWallets` never aborts on a single failed holder — every holder
whose classification raised is recorded in the regular bucket as type
`unknown` with reason "Classification failed", every holder whose
classification succeeded lands in the bucket selected by its type, and
the three buckets together contain exactly one entry per holder. -/
theorem c7_classification_failure_isolated
    (classify : Holder → Except Unit WalletClassification) (holders : List Holder) :
    (classifyWallets classify holders).teamWallets = teamBucketSpec classify holders ∧
    (classifyWallets classify holders).bundleWallets = bundleBucketSpec classify holders ∧
    (classifyWallets classify holders).regularWallets = regularBucketSpec classify holders ∧
    (∀ h ∈ holders, ∀ e, classify h = Except.error e →
      classificationFailedEntry h ∈ (classifyWallets classify holders).regularWallets ∧
      (classificationFailedEntry h).type = "unknown" ∧
      (classificationFailedEntry h).reason = "Classification failed") ∧
    (classifyWallets classify holders).teamWallets.length +
      (classifyWallets classify holders).bundleWallets.length +
      (classifyWallets classify holders).regularWallets.length = holders.length := by
  have hspec := classifyWalletsLoop_eq_spec classify holders
  have hlen := classifyWalletsLoop_length classify holders
  refine ⟨?_, ?_, ?_, ?_, ?_⟩
  · show (classifyWalletsLoop classify holders).1 = _
    rw [hspec]
  · show (classifyWalletsLoop classify holders).2.1 = _
    rw [hspec]
  · show (classifyWalletsLoop classify holders).2.2 = _
    rw [hspec]
  · intro h hmem e herr
    refine ⟨?_, rfl, rfl⟩
    show classificationFailedEntry h ∈ (classifyWalletsLoop classify holders).2.2
    rw [hspec]
    simp only [regularBucketSpec, List.mem_filterMap]
    exact ⟨h, hmem, by rw [herr]⟩
  · show (classifyWalletsLoop classify holders).1.length +
      (classifyWalletsLoop classify holders).2.1.length +
      (classifyWalletsLoop classify holders).2.2.length = holders.length
    exact hlen

/-- Witness for C7 at a concrete input: one succeeding team holder, one
holder whose classification raises. -/
theorem c7_classification_failure_isolated_witness :
    (5 : ℚ) ≠ 0 ∧
    (classifyWallets
      (fun h => if h.address = "0xbad" then Except.error () else
        Except.ok { type := "team", reason := "t", riskLevel := "high" })
      [{ address := "0xgood", balance := 5, balanceRaw := 5, percentage := 5 },
       { address := "0xbad", balance := 1, balanceRaw := 1, percentage := 1 }]).regularWallets =
      [classificationFailedEntry
        { address := "0xbad", balance := 1, balanceRaw := 1, percentage := 1 }] := by
  constructor
  · norm_num
  · rw [(c7_classification_failure_isolated
      (fun h => if h.address = "0xbad" then Except.error () else
        Except.ok { type := "team", reason := "t", riskLevel := "high" })
      [{ address := "0xgood", balance := 5, balanceRaw := 5, percentage := 5 },
       { address := "0xbad", balance := 1, balanceRaw := 1, percentage := 1 }]).2.2.1]
    decide

/-- A one-holder input on which every classification raises, showing the
exact fallback reason string the code records. -/
def demoHolder : Holder :=
  { address := "0xh", balance := 1, balanceRaw := 1, percentage := 1 }

/-- Counterexample for C7 as literally stated: the fallback entry's
reason is the string "Classification failed" (capital C), not
"classification failed" as the claim quotes it. -/
theorem c7_reason_string_counterexample :
    ((classifyWallets (fun _ => Except.error ()) [demoHolder]).regularWallets.map
      (fun w => w.reason)) = ["Classification failed"] ∧
    ((classifyWallets (fun _ => Except.error ()) [demoHolder]).regularWallets.map
      (fun w => w.type)) = ["unknown"] ∧
    ((classifyWallets (fun _ => Except.error ()) [demoHolder]).regularWallets.map
      (fun w => w.reason)) ≠ ["classification failed"] := by
  refine ⟨rfl, rfl, ?_⟩
  decide

/-- Spec-side risk grading, written from the words of claim C8: `high`
when team-supply > 20 or bundle-supply > 15, `medium` when either sum
exceeds 10 and no high condition holds, else `low`. -/
def riskLevelOfSums (teamSupply bundleSupply : ℚ) : String :=
  if teamSupply > 20 ∨ bundleSupply > 15 then "high"
  else if teamSupply > 10 ∨ bundleSupply > 10 then "medium"
  else "low"

/-- A concrete classified wallet holding `p` percent of supply. -/
def pctWallet (p : ℚ) : ClassifiedWallet :=
  { address := "0xw", balance := p, balanceRaw := p, percentage := p,
    type := "team", reason := "t", riskLevel := some "medium" }

/-- Claim C8: `assessRisk` grades purely from the two summed percentage
totals — `high` iff team-supply > 20 or bundle-supply > 15, `medium`
when either sum exceeds 10 (and neither high condition holds), else
`low`; in particular team 25% / bundle 0% is `high`, team 12% /
bundle 0% is `medium`, and team 5% / bundle 5% is `low`. -/
theorem c8_assessRisk_pure_of_sums :
    (∀ teamWallets bundleWallets : List ClassifiedWallet,
      (assessRisk teamWallets bundleWallets).riskLevel =
        riskLevelOfSums (sumPercentage teamWallets) (sumPercentage bundleWallets)) ∧
    (assessRisk [pctWallet 25] []).riskLevel = "high" ∧
    (assessRisk [pctWallet 12] []).riskLevel = "medium" ∧
    (assessRisk [pctWallet 5] [pctWallet 5]).riskLevel = "low" := by
  have hpure : ∀ teamWallets bundleWallets : List ClassifiedWallet,
      (assessRisk teamWallets bundleWallets).riskLevel =
        riskLevelOfSums (sumPercentage teamWallets) (sumPercentage bundleWallets) := by
    intro teamWallets bundleWallets
    simp only [assessRisk, riskLevelOfSums]
    split_ifs <;> first | rfl | tauto
  refine ⟨hpure, ?_, ?_, ?_⟩ <;>
  · rw [hpure]
    unfold riskLevelOfSums
    norm_num [sumPercentage, pctWallet]

/-- Claim C9: the concentration rule short-circuits — any holder whose
percentage exceeds 0.1 is classified `team` with riskLevel `high` when
percentage > 10 and `medium` otherwise, for EVERY value of the
deployer-funding oracle and the bundle-pattern oracle (so neither
sub-check can influence the outcome). -/
theorem c9_concentration_rule_wins
    (holder : Holder) (deployer : Option String)
    (fundedByDeployer : Bool) (bundlePattern : BundlePattern)
    (hp : holder.percentage > 1 / 10) :
    classifyWallet holder deployer fundedByDeployer bundlePattern =
      { type := "team",
        reason := "Holds " ++ toFixed2 holder.percentage ++ "% of total supply",
        riskLevel := if holder.percentage > 10 then "high" else "medium" } := by
  unfold classifyWallet
  rw [if_pos hp]

/-- Witness for C9 at a concrete input: a holder at 5% of supply that
was also funded by the deployer (funding oracle true, behavioral oracle
matching) is classified `team` with riskLevel `medium`, not `bundle`. -/
theorem c9_concentration_rule_wins_witness :
    (classifyWallet { address := "0xh", balance := 50, balanceRaw := 50, percentage := 5 }
      (some "0xdeployer") true { isBundle := true, reason := "Quick sell pattern detected" }).type
      = "team" ∧
    (classifyWallet { address := "0xh", balance := 50, balanceRaw := 50, percentage := 5 }
      (some "0xdeployer") true { isBundle := true, reason := "Quick sell pattern detected" }).riskLevel
      = "medium" ∧
    ("team" : String) ≠ "bundle" := by
  have h := c9_concentration_rule_wins
    { address := "0xh", balance := 50, balanceRaw := 50, percentage := 5 }
    (some "0xdeployer") true { isBundle := true, reason := "Quick sell pattern detected" }
    (by norm_num)
  rw [h]
  refine ⟨rfl, ?_, by decide⟩
  rw [if_neg (by norm_num)]

/-! ### Holder percentage computation (part_001, `getTopHolders` lines
129-199 and `getHoldersFromTransactions` lines 201-259) -/

/-- One row of the Moralis owners response as consumed by
`getTopHolders` (lines 167-168): the owner address and the raw balance
(`parseFloat(holder.balance)`). -/
structure MoralisHolderRow where
  ownerAddress : String
  balance : ℚ
  deriving DecidableEq

/-- The holder list built by `getTopHolders` on the success path (lines
156-188): balances are scaled by `10^decimals` and the percentage is
`balanceFormatted / totalSupplyFormatted * 100` guarded by
`totalSupplyFormatted > 0`, else 0 (line 171). -/
def getTopHolders_holders (rows : List MoralisHolderRow) (decimals : ℕ)
    (totalSupply : ℚ) : List Holder :=
  let totalSupplyFormatted := totalSupply / 10 ^ decimals
  rows.map fun row =>
    let balanceFormatted := row.balance / 10 ^ decimals
    { address := row.ownerAddress, balance := balanceFormatted, balanceRaw := row.balance,
      percentage :=
        if totalSupplyFormatted > 0 then balanceFormatted / totalSupplyFormatted * 100 else 0 }

/-- A token-transfer row of the explorer `tokentx` response as consumed
by `getHoldersFromTransactions` (lines 229-234): recipient and
transferred raw value (`parseFloat(tx.value)`). -/
structure TokenTx where
  toAddr : String
  value : ℚ
  deriving DecidableEq

/-- The burn address excluded by the aggregation filter (line 230). -/
def zeroAddress : String := "0x0000000000000000000000000000000000000000"

/-- `holders.get(tx.to) || 0` (line 231): lookup in the accumulator map
with default 0. -/
def mapGetD (m : List (String × ℚ)) (k : String) : ℚ :=
  (List.lookup k m).getD 0

/-- `holders.set(key, value)` on a JavaScript `Map`, modelled on an
insertion-ordered association list: overwrite in place if the key
exists, else append at the end. -/
def mapSet : List (String × ℚ) → String → ℚ → List (String × ℚ)
  | [], k, v => [(k, v)]
  | (k1, v1) :: rest, k, v =>
    if k1 = k then (k, v) :: rest else (k1, v1) :: mapSet rest k v

/-- The per-recipient aggregation loop of `getHoldersFromTransactions`
(lines 227-235): for every transfer with a truthy recipient other than
the zero address, add its value to that recipient's running total. -/
def getHoldersFromTransactions_aggregate (txs : List TokenTx) : List (String × ℚ) :=
  txs.foldl
    (fun m tx =>
      if tx.toAddr ≠ "" ∧ tx.toAddr ≠ zeroAddress then mapSet m tx.toAddr (mapGetD m tx.toAddr + tx.value)
      else m)
    []

/-- The holder record built from one aggregated `(address, balanceRaw)`
entry (lines 238-248). -/
def holderOfEntry (decimals : ℕ) (totalSupplyFormatted : ℚ) (e : String × ℚ) : Holder :=
  let balanceFormatted := e.2 / 10 ^ decimals
  { address := e.1, balance := balanceFormatted, balanceRaw := e.2,
    percentage :=
      if totalSupplyFormatted > 0 then balanceFormatted / totalSupplyFormatted * 100 else 0 }

/-- Stable insertion of a holder into a list sorted by descending
balance, modelling `.sort((a, b) => b.balance - a.balance)` (line
250). -/
def insertDescByBalance (a : Holder) : List Holder → List Holder
  | [] => [a]
  | b :: l => if b.balance < a.balance then a :: b :: l else b :: insertDescByBalance a l

/-- Stable sort by descending balance (line 250). -/
def sortDescByBalance : List Holder → List Holder
  | [] => []
  | a :: l => insertDescByBalance a (sortDescByBalance l)

/-- The holder list built by the transaction-history fallback
`getHoldersFromTransactions` (lines 226-251): aggregate, build holder
records, sort by descending balance, keep the top 100. -/
def getHoldersFromTransactions_holders (txs : List TokenTx) (decimals : ℕ)
    (totalSupply : ℚ) : List Holder :=
  let totalSupplyFormatted := totalSupply / 10 ^ decimals
  (sortDescByBalance
    ((getHoldersFromTransactions_aggregate txs).map
      (holderOfEntry decimals totalSupplyFormatted))).take 100

/-- Insertion into the descending-balance sort preserves membership. -/
theorem mem_insertDescByBalance {a x : Holder} {l : List Holder} :
    x ∈ insertDescByBalance a l ↔ x = a ∨ x ∈ l := by
  induction l with
  | nil => simp [insertDescByBalance]
  | cons b t ih =>
    simp only [insertDescByBalance]
    split_ifs <;> · simp [ih]
                    try tauto

/-- The descending-balance sort preserves membership. -/
theorem mem_sortDescByBalance {x : Holder} {l : List Holder} :
    x ∈ sortDescByBalance l ↔ x ∈ l := by
  induction l with
  | nil => simp [sortDescByBalance]
  | cons a t ih => simp [sortDescByBalance, mem_insertDescByBalance, ih]

/-- Claim C10: every holder record produced by `getTopHolders` or by the
transaction-history fallback has
`percentage = balance / (totalSupply / 10^decimals) * 100` when the
human-readable total supply is positive, and `percentage = 0` when it is
zero — the division-by-zero branch is never taken. -/
theorem c10_percentage_formula (decimals : ℕ) (totalSupply : ℚ) :
    (∀ rows : List MoralisHolderRow,
      ∀ h ∈ getTopHolders_holders rows decimals totalSupply,
        (0 < totalSupply / 10 ^ decimals →
          h.percentage = h.balance / (totalSupply / 10 ^ decimals) * 100) ∧
        (totalSupply / 10 ^ decimals = 0 → h.percentage = 0)) ∧
    (∀ txs : List TokenTx,
      ∀ h ∈ getHoldersFromTransactions_holders txs decimals totalSupply,
        (0 < totalSupply / 10 ^ decimals →
          h.percentage = h.balance / (totalSupply / 10 ^ decimals) * 100) ∧
        (totalSupply / 10 ^ decimals = 0 → h.percentage = 0)) := by
  constructor
  · intro rows h hmem
    simp only [getTopHolders_holders, List.mem_map] at hmem
    obtain ⟨row, _hrow, rfl⟩ := hmem
    constructor
    · intro hts
      simp [hts]
    · intro hts
      simp [hts]
  · intro txs h hmem
    simp only [getHoldersFromTransactions_holders] at hmem
    have h1 := List.take_subset 100 _ hmem
    have h2 := mem_sortDescByBalance.mp h1
    simp only [List.mem_map] at h2
    obtain ⟨e, _he, rfl⟩ := h2
    constructor
    · intro hts
      simp [holderOfEntry, hts]
    · intro hts
      simp [holderOfEntry, hts]

/-- Witness for C10 at concrete inputs: with `decimals = 0` and raw
total supply 10 (human-readable supply 10 > 0), the single holder
produced by each pipeline from a single balance-5 row carries
percentage 50 = 5 / 10 * 100. -/
theorem c10_percentage_formula_witness :
    (0 : ℚ) < 10 / 10 ^ 0 ∧
    ({ address := "0xb", balance := 5, balanceRaw := 5, percentage := 50 } : Holder) ∈
      getTopHolders_holders [{ ownerAddress := "0xb", balance := 5 }] 0 10 ∧
    (50 : ℚ) = 5 / ((10 : ℚ) / 10 ^ 0) * 100 ∧
    ({ address := "0xb", balance := 5, balanceRaw := 5, percentage := 50 } : Holder) ∈
      getHoldersFromTransactions_holders [{ toAddr := "0xb", value := 5 }] 0 10 := by
  have hmem1 : ({ address := "0xb", balance := 5, balanceRaw := 5, percentage := 50 } : Holder) ∈
      getTopHolders_holders [{ ownerAddress := "0xb", balance := 5 }] 0 10 := by
    norm_num [getTopHolders_holders]
  have hagg : getHoldersFromTransactions_aggregate [{ toAddr := "0xb", value := 5 }] =
      [("0xb", 5)] := by
    simp only [getHoldersFromTransactions_aggregate, List.foldl]
    rw [if_pos (by decide)]
    norm_num [mapGetD, mapSet]
  have hmem2 : ({ address := "0xb", balance := 5, balanceRaw := 5, percentage := 50 } : Holder) ∈
      getHoldersFromTransactions_holders [{ toAddr := "0xb", value := 5 }] 0 10 := by
    simp only [getHoldersFromTransactions_holders, hagg]
    norm_num [holderOfEntry, sortDescByBalance, insertDescByBalance]
  have hformula :=
    ((c10_percentage_formula 0 10).1 [{ ownerAddress := "0xb", balance := 5 }]
      { address := "0xb", balance := 5, balanceRaw := 5, percentage := 50 } hmem1).1
      (by norm_num)
  refine ⟨by norm_num, hmem1, ?_, hmem2⟩
  simpa using hformula

end AionDap
